import Mathlib

/-!
Verification of the CSB validator engine (`csb_validator/validator.py`).

This file shallowly embeds the validation engine in Lean 4:

* `extract_feature_line_numbers` — the textual position indexer;
* `run_custom_validation` (with its per-feature checks) — the embedded
  rule evaluator, including Python's exception behaviour made explicit
  as `Except`/`Option PyErr` values;
* `run_trusted_node_validation` — the external validator adapter, as a
  pure function of the subprocess outcome;
* the summary counting performed by `write_report_pdf`.

Python values parsed from JSON are modelled by the inductive `Json`;
external library behaviour (the JSON parser, `float()` on strings,
`datetime.fromisoformat` plus comparison against the current UTC
instant) is abstracted into a `PyEnv` parameter, since these are
collaborators outside the engine.  File I/O is modelled by passing the
file content as a `String`.
-/

namespace Csb

/-- Models a Python value obtained from `json.loads`: JSON null, booleans,
numbers (modelled as rationals; integral JSON numbers become Python ints,
which print without a decimal point), strings, arrays (Python lists) and
objects (Python dicts, as association lists in key order). -/
inductive Json where
  | null
  | boolean (b : Bool)
  | num (q : ℚ)
  | str (s : String)
  | arr (elems : List Json)
  | obj (fields : List (String × Json))

/-- Models a Python exception: the engine distinguishes `ValueError`
(caught locally by the heading check) from other exceptions
(`TypeError`, `AttributeError`) which propagate to the outer handler.
The payload models `str(e)`. -/
inductive PyErr where
  | valueError (msg : String)
  | typeError (msg : String)
  | attributeError (msg : String)
deriving DecidableEq, Repr

/-- Models Python `str(e)` for a caught exception. -/
def pyErrStr : PyErr → String
  | .valueError m => m
  | .typeError m => m
  | .attributeError m => m

/-- Models Python truthiness (`bool(v)`) on JSON-derived values. -/
def pyTruthy : Json → Bool
  | .null => false
  | .boolean b => b
  | .num q => q != 0
  | .str s => s != ""
  | .arr xs => !xs.isEmpty
  | .obj fs => !fs.isEmpty

/-- Models Python `str(v)` as used by the f-string messages.  Exact for
`None`, booleans, strings and integral numbers (the values the rule
messages are exercised on); non-integral rationals and containers are
rendered approximately, which no rule message in the spec depends on. -/
def pyStr : Json → String
  | .null => "None"
  | .boolean b => if b then "True" else "False"
  | .num q => if q.den = 1 then toString q.num else toString q
  | .str s => s
  | .arr _ => "[...]"
  | .obj _ => "\x7b...\x7d"

/-- Checks whether a value is JSON null (Python `is None`). -/
def Json.isNull : Json → Bool
  | .null => true
  | _ => false

/-- Checks `isinstance(v, list)`. -/
def Json.isArr : Json → Bool
  | .arr _ => true
  | _ => false

/-- Models Python `len` on a list; only consulted after `isinstance(v, list)`
has succeeded, so the non-list branches are never reached by the engine. -/
def Json.pyLen : Json → Nat
  | .arr xs => xs.length
  | .str s => s.length
  | .obj fs => fs.length
  | _ => 0

/-- Elements of a JSON array (empty for non-arrays; only consulted after
the geometry check has established a list of length at least two). -/
def Json.elems : Json → List Json
  | .arr xs => xs
  | _ => []

/-- Models Python `d.get(key, default)`: succeeds on a dict, raises
`AttributeError` on anything else. -/
def pyDictGetD (v : Json) (key : String) (dflt : Json) : Except PyErr Json :=
  match v with
  | .obj fields =>
    match fields.lookup key with
    | some w => .ok w
    | none => .ok dflt
  | _ => .error (.attributeError ("object has no attribute get: " ++ key))

/-- Models Python `d.get(key)` (default `None`, which is indistinguishable
from an absent key): succeeds on a dict, raises `AttributeError` otherwise. -/
def pyDictGet (v : Json) (key : String) : Except PyErr (Option Json) :=
  match v with
  | .obj fields => .ok (fields.lookup key)
  | _ => .error (.attributeError ("object has no attribute get: " ++ key))

/-- Models Python iteration `for x in v` as used by `enumerate`: lists
yield their elements, strings their one-character substrings, dicts their
keys; numbers, booleans and `None` raise `TypeError`. -/
def pyIter : Json → Except PyErr (List Json)
  | .arr xs => .ok xs
  | .str s => .ok (s.data.map fun c => .str (String.singleton c))
  | .obj fields => .ok (fields.map fun p => .str p.1)
  | _ => .error (.typeError "object is not iterable")

/-- Models the external-library collaborators of the engine:
`jsonLoads` is `json.loads` (error payload models `str(e)`);
`strToFloat` is Python `float` applied to a string (`none` models
`ValueError`); `parseIso` is `datetime.fromisoformat` on the
`Z`-rewritten string, yielding the parsed instant on the UTC timeline
(`none` models a parse failure or an offset-naive result whose
comparison with an aware `now` raises — both land in the same local
handler); `now` is `datetime.now(timezone.utc)` at validation time. -/
structure PyEnv where
  jsonLoads : String → Except String Json
  strToFloat : String → Option ℚ
  parseIso : String → Option Int
  now : Int

/-- Validation issue record: the dicts
`\x7b"file": ..., "feature": ..., "error": ...\x7d` built by the validators. -/
structure Finding where
  file : String
  feature : String
  error : String
deriving DecidableEq, Repr

/-! ### Position indexer (`extract_feature_line_numbers`) -/

/-- Tests whether `pat` is a prefix of `l` (character lists). -/
def listStartsWith : List Char → List Char → Bool
  | [], _ => true
  | _ :: _, [] => false
  | a :: as, b :: bs => a = b && listStartsWith as bs

/-- Substring search over character lists. -/
def listContainsSub (pat : List Char) : List Char → Bool
  | [] => pat.isEmpty
  | c :: cs => listStartsWith pat (c :: cs) || listContainsSub pat cs

/-- Models the Python substring test `pat in s`. -/
def strContains (s pat : String) : Bool :=
  listContainsSub pat.data s.data

/-- Line splitter over characters: a line ends at `\n`, `\r\n` or `\r`;
trailing content without a terminator forms a final line; a trailing
terminator adds no empty line.  The accumulator holds the current line
reversed. -/
def splitlinesChars (acc : List Char) : List Char → List String
  | [] => if acc.isEmpty then [] else [String.mk acc.reverse]
  | '\r' :: '\n' :: rest => String.mk acc.reverse :: splitlinesChars [] rest
  | '\n' :: rest => String.mk acc.reverse :: splitlinesChars [] rest
  | '\r' :: rest => String.mk acc.reverse :: splitlinesChars [] rest
  | c :: rest => splitlinesChars (c :: acc) rest

/-- Models Python `str.splitlines` (for the common `\n`, `\r\n` and `\r`
separators; the exotic unicode separators Python also accepts are not
modelled). -/
def pySplitlines (s : String) : List String :=
  splitlinesChars [] s.data

/-- Models Python `str.strip` with no argument: removes leading and
trailing whitespace (Lean's `Char.isWhitespace` covers the space, tab,
carriage-return and newline characters the adapter can meet). -/
def pyStrip (s : String) : String :=
  String.mk
    (((s.data.dropWhile Char.isWhitespace).reverse.dropWhile Char.isWhitespace).reverse)

/-- Models Python `str.replace(pat, rep)` for a one-character pattern
(the engine only calls it as `replace("Z", "+00:00")`): every occurrence
of the character is replaced. -/
def pyReplace (s pat rep : String) : String :=
  match pat.data with
  | [p] => String.mk (s.data.flatMap fun c => if c = p then rep.data else [c])
  | _ => s

/-- Models the Python slice `s[:n]`. -/
def pySlice (s : String) (n : Nat) : String :=
  String.mk (s.data.take n)

/-- Scanner state of `extract_feature_line_numbers`: the committed
ordinal-to-line map (Python dict with keys inserted in increasing order),
the next feature ordinal, the brace stack, and the candidate start line. -/
structure ScanSt where
  featureLineMap : List (Nat × Nat)
  featureIndex : Nat
  bracketStack : List Char
  featureStartPos : Option Nat
deriving DecidableEq, Repr

/-- Models Python truthiness of `feature_start_pos` (`None` and `0` falsy). -/
def optPosTruthy : Option Nat → Bool
  | none => false
  | some n => n != 0

/-- Steps the scanner on one character of a line whose 1-based number is
`lineNo`; `Sum.inr` models the early `return feature_line_map` on a `]`
seen with an empty stack. -/
def processChar (lineNo : Nat) (st : ScanSt) (c : Char) : ScanSt ⊕ List (Nat × Nat) :=
  if c = '{' then
    let st :=
      if st.bracketStack.isEmpty then { st with featureStartPos := some lineNo } else st
    .inl { st with bracketStack := '{' :: st.bracketStack }
  else if c = '}' then
    if st.bracketStack.isEmpty then .inl st
    else
      let stack := st.bracketStack.tail
      if stack.isEmpty && optPosTruthy st.featureStartPos then
        .inl { featureLineMap :=
                 st.featureLineMap ++ [(st.featureIndex, st.featureStartPos.getD 0)],
               featureIndex := st.featureIndex + 1,
               bracketStack := stack,
               featureStartPos := none }
      else .inl { st with bracketStack := stack }
  else if c = ']' then
    if st.bracketStack.isEmpty then .inr st.featureLineMap else .inl st
  else .inl st

/-- Runs the scanner across the characters of one line. -/
def processLine (lineNo : Nat) (st : ScanSt) : List Char → ScanSt ⊕ List (Nat × Nat)
  | [] => .inl st
  | c :: cs =>
    match processChar lineNo st c with
    | .inl st' => processLine lineNo st' cs
    | .inr m => .inr m

/-- Runs the scanner across the lines; `i` is the 0-based index of the
current line, `inFeatures` the `in_features` flag.  A line containing both
the literal key `"features"` and `[` flips the flag and is itself skipped
(the `continue` in the source). -/
def scanLines : Nat → Bool → ScanSt → List String → List (Nat × Nat)
  | _, _, st, [] => st.featureLineMap
  | i, inFeatures, st, line :: rest =>
    if !inFeatures then
      if strContains line "\"features\"" && strContains line "[" then
        scanLines (i+1) true st rest
      else
        scanLines (i+1) false st rest
    else
      match processLine (i+1) st line.data with
      | .inl st' => scanLines (i+1) true st' rest
      | .inr m => m

/-- Embeds `extract_feature_line_numbers`: the file content is passed as a
string (the source reads it from disk). -/
def extract_feature_line_numbers (content : String) : List (Nat × Nat) :=
  scanLines 0 false ⟨[], 0, [], none⟩ (pySplitlines content)

/-! ### Rule evaluator (`run_custom_validation`) -/

/-- Models `line_map.get(i, "N/A")` followed by `str(line_number)`. -/
def featureLabel (lineMap : List (Nat × Nat)) (i : Nat) : String :=
  match lineMap.lookup i with
  | some n => toString n
  | none => "N/A"

/-- Models Python `float(v)` on a JSON-derived value: numbers pass
through, booleans coerce, strings go through the library conversion
(`ValueError` on failure); `None`, lists and dicts raise `TypeError`. -/
def pyFloat (env : PyEnv) : Json → Except PyErr ℚ
  | .num q => .ok q
  | .boolean b => .ok (if b then 1 else 0)
  | .str s =>
    match env.strToFloat s with
    | some q => .ok q
    | none => .error (.valueError ("could not convert string to float: " ++ s))
  | .null => .error (.typeError "float() argument must not be None")
  | .arr _ => .error (.typeError "float() argument must not be a list")
  | .obj _ => .error (.typeError "float() argument must not be a dict")

/-- Models the Python comparison `v < c` against a number: numbers and
booleans compare, everything else raises `TypeError`. -/
def pyLtNum (v : Json) (c : ℚ) : Except PyErr Bool :=
  match v with
  | .num q => .ok (decide (q < c))
  | .boolean b => .ok (decide ((if b then (1 : ℚ) else 0) < c))
  | _ => .error (.typeError "comparison not supported between these types")

/-- Models the Python comparison `v > c` against a number. -/
def pyGtNum (v : Json) (c : ℚ) : Except PyErr Bool :=
  match v with
  | .num q => .ok (decide (c < q))
  | .boolean b => .ok (decide (c < (if b then (1 : ℚ) else 0)))
  | _ => .error (.typeError "comparison not supported between these types")

/-- Geometry-presence test of the evaluator:
`not coords or not isinstance(coords, list) or len(coords) < 2`. -/
def geomInvalid (coords : Json) : Bool :=
  !pyTruthy coords || !coords.isArr || coords.pyLen < 2

/-- Longitude check: `lon is None or lon < -180 or lon > 180`, appending
`"Longitude out of bounds: {lon}"`; a comparison on a non-numeric value
raises out of the check. -/
def lonCheck (filePath lineLabel : String) (lon : Json) : Except PyErr (List Finding) :=
  if lon.isNull then
    .ok [⟨filePath, lineLabel, "Longitude out of bounds: " ++ pyStr lon⟩]
  else
    match pyLtNum lon (-180) with
    | .error e => .error e
    | .ok true => .ok [⟨filePath, lineLabel, "Longitude out of bounds: " ++ pyStr lon⟩]
    | .ok false =>
      match pyGtNum lon 180 with
      | .error e => .error e
      | .ok true => .ok [⟨filePath, lineLabel, "Longitude out of bounds: " ++ pyStr lon⟩]
      | .ok false => .ok []

/-- Latitude check: `lat is None or lat < -90 or lat > 90`, appending
`"Latitude out of bounds: {lat}"`. -/
def latCheck (filePath lineLabel : String) (lat : Json) : Except PyErr (List Finding) :=
  if lat.isNull then
    .ok [⟨filePath, lineLabel, "Latitude out of bounds: " ++ pyStr lat⟩]
  else
    match pyLtNum lat (-90) with
    | .error e => .error e
    | .ok true => .ok [⟨filePath, lineLabel, "Latitude out of bounds: " ++ pyStr lat⟩]
    | .ok false =>
      match pyGtNum lat 90 with
      | .error e => .error e
      | .ok true => .ok [⟨filePath, lineLabel, "Latitude out of bounds: " ++ pyStr lat⟩]
      | .ok false => .ok []

/-- Depth check of the source: `props.get("depth") is None` (an absent key
and a JSON null value both give Python `None`) appends
`"Depth cannot be blank"`. -/
def depthCheck (filePath lineLabel : String) : Option Json → List Finding
  | none => [⟨filePath, lineLabel, "Depth cannot be blank"⟩]
  | some .null => [⟨filePath, lineLabel, "Depth cannot be blank"⟩]
  | some _ => []

/-- Heading check: runs only when `props.get("heading") is not None`;
`float(heading)` failing with `ValueError` is reported as
`"Heading is not a valid number: {heading}"`, any other exception
propagates; a parsed value outside `[0, 360]` is reported as
`"Heading out of bounds: {heading}"`. -/
def headingCheck (env : PyEnv) (filePath lineLabel : String) :
    Option Json → Except PyErr (List Finding)
  | none => .ok []
  | some .null => .ok []
  | some v =>
    match pyFloat env v with
    | .ok q =>
      if q < 0 ∨ q > 360 then
        .ok [⟨filePath, lineLabel, "Heading out of bounds: " ++ pyStr v⟩]
      else .ok []
    | .error (.valueError _) =>
      .ok [⟨filePath, lineLabel, "Heading is not a valid number: " ++ pyStr v⟩]
    | .error e => .error e

/-- Timestamp check: a falsy `props.get("time")` (absent, null, empty
string, ...) appends `"Timestamp cannot be blank"`; otherwise everything
runs inside a local `try`: a non-string raises on `.replace` and a
non-parsing string raises in `fromisoformat`, both reported as
`"Invalid ISO 8601 timestamp: {time_str}"`; a parsed instant strictly
later than now is reported as
`"Timestamp should be in the past: {time_str[:10]}"`. -/
def timeCheck (env : PyEnv) (filePath lineLabel : String) : Option Json → List Finding
  | none => [⟨filePath, lineLabel, "Timestamp cannot be blank"⟩]
  | some v =>
    if !pyTruthy v then [⟨filePath, lineLabel, "Timestamp cannot be blank"⟩]
    else
      match v with
      | .str s =>
        match env.parseIso (pyReplace s "Z" "+00:00") with
        | none => [⟨filePath, lineLabel, "Invalid ISO 8601 timestamp: " ++ s⟩]
        | some ts =>
          if env.now < ts then
            [⟨filePath, lineLabel, "Timestamp should be in the past: " ++ pySlice s 10⟩]
          else []
      | w => [⟨filePath, lineLabel, "Invalid ISO 8601 timestamp: " ++ pyStr w⟩]

/-- Evaluates all checks on one feature, in source order (geometry,
longitude, latitude, depth, heading, timestamp).  The result is the list
of findings appended so far for this feature together with the exception,
if any, that escaped to the outer handler; a geometry failure returns
just its finding (the `continue` in the source). -/
def checkFeature (env : PyEnv) (filePath lineLabel : String) (feature : Json) :
    List Finding × Option PyErr :=
  match pyDictGetD feature "properties" (.obj []) with
  | .error e => ([], some e)
  | .ok props =>
    match pyDictGetD feature "geometry" (.obj []) with
    | .error e => ([], some e)
    | .ok geomObj =>
      match pyDictGetD geomObj "coordinates" (.arr []) with
      | .error e => ([], some e)
      | .ok coords =>
        if geomInvalid coords then
          ([⟨filePath, lineLabel, "Invalid geometry coordinates"⟩], none)
        else
          let lon := coords.elems.getD 0 .null
          let lat := coords.elems.getD 1 .null
          match lonCheck filePath lineLabel lon with
          | .error e => ([], some e)
          | .ok lonFs =>
            match latCheck filePath lineLabel lat with
            | .error e => (lonFs, some e)
            | .ok latFs =>
              match pyDictGet props "depth" with
              | .error e => (lonFs ++ latFs, some e)
              | .ok depthOpt =>
                let depthFs := depthCheck filePath lineLabel depthOpt
                match pyDictGet props "heading" with
                | .error e => (lonFs ++ latFs ++ depthFs, some e)
                | .ok headingOpt =>
                  match headingCheck env filePath lineLabel headingOpt with
                  | .error e => (lonFs ++ latFs ++ depthFs, some e)
                  | .ok headFs =>
                    match pyDictGet props "time" with
                    | .error e => (lonFs ++ latFs ++ depthFs ++ headFs, some e)
                    | .ok timeOpt =>
                      (lonFs ++ latFs ++ depthFs ++ headFs ++
                        timeCheck env filePath lineLabel timeOpt, none)

/-- Runs the `for i, feature in enumerate(...)` loop from ordinal `i`:
findings accumulate across features; an exception escaping a feature
appends one `"Failed to parse JSON: {str(e)}"` finding with label `"N/A"`
after the findings accumulated so far and abandons the remaining
features. -/
def validateFeatures (env : PyEnv) (filePath : String) (lineMap : List (Nat × Nat)) :
    Nat → List Json → List Finding
  | _, [] => []
  | i, f :: rest =>
    match checkFeature env filePath (featureLabel lineMap i) f with
    | (fs, some e) => fs ++ [⟨filePath, "N/A", "Failed to parse JSON: " ++ pyErrStr e⟩]
    | (fs, none) => fs ++ validateFeatures env filePath lineMap (i+1) rest

/-- Models `data.get("features", [])` followed by `enumerate` over the
result; both raise through to the outer handler on uniterable data. -/
def featuresList (data : Json) : Except PyErr (List Json) :=
  match pyDictGetD data "features" (.arr []) with
  | .error e => .error e
  | .ok featsJson => pyIter featsJson

/-- Embeds `run_custom_validation`: the line map is extracted from the
raw content, then parse and evaluate inside one `try` whose handler
appends a single `"Failed to parse JSON"` finding with label `"N/A"`. -/
def run_custom_validation (env : PyEnv) (filePath content : String) :
    String × List Finding :=
  let lineMap := extract_feature_line_numbers content
  match env.jsonLoads content with
  | .error msg => (filePath, [⟨filePath, "N/A", "Failed to parse JSON: " ++ msg⟩])
  | .ok data =>
    match featuresList data with
    | .error e => (filePath, [⟨filePath, "N/A", "Failed to parse JSON: " ++ pyErrStr e⟩])
    | .ok feats => (filePath, validateFeatures env filePath lineMap 0 feats)

/-! ### Spec-modelled strict depth variant -/

/-- Modelled from the spec: the variant rule set that "additionally
requires depth to be negative", exposed "as a configurable strictness
option".  The variant evaluator lives in `validator_crowbar.py`, which the
API imports but which is not among the source files; only its
non-strict half (`depthCheck`) is in `validator.py`.  With `strict :=
false` this is exactly the source depth check; with `strict := true` a
present, non-null depth must in addition be a negative number. -/
def depthCheckStrict (strict : Bool) (filePath lineLabel : String) :
    Option Json → List Finding
  | none => [⟨filePath, lineLabel, "Depth cannot be blank"⟩]
  | some .null => [⟨filePath, lineLabel, "Depth cannot be blank"⟩]
  | some v =>
    if strict then
      match v with
      | .num q => if q < 0 then [] else [⟨filePath, lineLabel, "Depth must be negative"⟩]
      | _ => [⟨filePath, lineLabel, "Depth must be negative"⟩]
    else []

/-! ### External validator adapter (`run_trusted_node_validation`) -/

/-- Outcome of the subprocess invocation: either the tool ran and
produced an exit status with decoded standard output, or the attempt to
launch it raised (binary missing, I/O error) with message `str(e)`. -/
inductive ProcResult where
  | ran (returncode : Int) (stdout : String)
  | launchFailure (msg : String)

/-- Finds the first occurrence of `sep` in the remaining characters:
returns the part before it (accumulated reversed in `pre`) and the part
after it. -/
def splitFirstAux (sep : List Char) (pre : List Char) : List Char → Option (List Char × List Char)
  | [] => none
  | c :: cs =>
    if listStartsWith sep (c :: cs) then
      some (pre.reverse, (c :: cs).drop sep.length)
    else splitFirstAux sep (c :: pre) cs

/-- Models Python `line.split(sep, 1)` (for `sep` present in `line`, the
only way the adapter calls it): the part before the first occurrence of
`sep` and everything after it. -/
def splitFirst (sep line : String) : String × String :=
  match splitFirstAux sep.data [] line.data with
  | some (l, r) => (String.mk l, String.mk r)
  | none => (line, "")

/-- Structured-error extraction of the adapter: over
`stdout.decode().strip().splitlines()`, a line is structured when it
contains both `"Path:"` and `"error:"`; its message is the stripped part
after the first `"error:"`. -/
def structuredErrors (filePath stdoutText : String) : List Finding :=
  (pySplitlines (pyStrip stdoutText)).filterMap fun line =>
    if strContains line "Path:" && strContains line "error:" then
      some ⟨filePath, "N/A", pyStrip (splitFirst "error:" line).2⟩
    else none

/-- Embeds `run_trusted_node_validation` as a pure function of the
subprocess outcome (command construction, printing and decoding are I/O
glue outside the engine). -/
def run_trusted_node_validation (filePath : String) (r : ProcResult) :
    String × List Finding :=
  match r with
  | .launchFailure msg =>
    (filePath, [⟨filePath, "N/A", "Subprocess error: " ++ msg⟩])
  | .ran returncode stdoutText =>
    if returncode = 0 then (filePath, [])
    else
      let errors := structuredErrors filePath stdoutText
      (filePath,
        if errors.isEmpty then [⟨filePath, "N/A", "Unstructured error"⟩] else errors)

/-! ### Report summary counting (`write_report_pdf`) -/

/-- Models `set.add`: Python set membership by value (only the size of
the set is consumed by the report, so insertion order is irrelevant). -/
def setAdd (s : List String) (x : String) : List String :=
  if x ∈ s then s else s ++ [x]

/-- One iteration of the accumulation loop of `write_report_pdf`: for a
`(file, errors)` pair with truthy `errors`, add the path to
`files_with_errors` and append one `(file, feature, error)` row per
finding to `detailed_errors`; a falsy `errors` changes nothing. -/
def reportStep (acc : List String × List (String × String × String))
    (r : String × List Finding) : List String × List (String × String × String) :=
  if r.2.isEmpty then acc
  else (setAdd acc.1 r.1, acc.2 ++ r.2.map fun e => (r.1, e.feature, e.error))

/-- The accumulation loop of `write_report_pdf` over all results. -/
def reportAccum (results : List (String × List Finding)) :
    List String × List (String × String × String) :=
  results.foldl reportStep ([], [])

/-- The three summary numbers printed by `write_report_pdf`:
`len(results)`, `len(files_with_errors)`, `len(detailed_errors)`. -/
def reportSummary (results : List (String × List Finding)) : Nat × Nat × Nat :=
  (results.length, (reportAccum results).1.length, (reportAccum results).2.length)

/-- Paths of the results carrying at least one finding, in input order
(with repetitions). -/
def errPaths (results : List (String × List Finding)) : List String :=
  (results.filter fun r => !r.2.isEmpty).map fun r => r.1

/-! ### Concrete inputs used by the witnesses and counterexamples -/

/-- Two FileResult entries for the SAME path, both with findings. -/
def dupResults : List (String × List Finding) :=
  [("a.geojson", [⟨"a.geojson", "1", "e1"⟩]),
   ("a.geojson", [⟨"a.geojson", "2", "e2"⟩])]

/-- Distinct-path batch: one file with two findings, one clean file. -/
def wres : List (String × List Finding) :=
  [("a.geojson", [⟨"a.geojson", "1", "e1"⟩, ⟨"a.geojson", "2", "e2"⟩]),
   ("b.geojson", [])]

/-- Concrete environment: the JSON parser always fails, strings never
convert to floats, timestamps never parse. -/
def witEnv : PyEnv :=
  { jsonLoads := fun _ => .error "Expecting value: line 1 column 1 (char 0)",
    strToFloat := fun _ => none,
    parseIso := fun _ => none,
    now := 0 }

/-- Feature with empty properties and a geometry object carrying no
coordinates: fails the geometry-presence check, has no depth and no
timestamp. -/
def featureNoCoords : Json :=
  .obj [("properties", .obj []), ("geometry", .obj [])]

/-- Feature with a one-element coordinate list. -/
def featureShortCoords : Json :=
  .obj [("properties", .obj []),
        ("geometry", .obj [("coordinates", .arr [.num 5])])]

/-- Environment whose timestamp parser returns an instant later than
`now` (a timestamp one year or more in the future). -/
def futureEnv : PyEnv :=
  { jsonLoads := fun _ => .error "Expecting value: line 1 column 1 (char 0)",
    strToFloat := fun _ => none,
    parseIso := fun _ => some 4102444800,
    now := 1600000000 }

/-- Feature with valid coordinates, a present timestamp and no depth. -/
def featureNoDepth : Json :=
  .obj [("properties", .obj [("time", .str "2020-01-01T00:00:00Z")]),
        ("geometry", .obj [("coordinates", .arr [.num 10, .num 20])])]

/-- Feature with valid coordinates, depth present, and a timestamp one
year in the future. -/
def featureFutureTime : Json :=
  .obj [("properties", .obj [("depth", .num (-15)), ("time", .str "2100-01-01T00:00:00Z")]),
        ("geometry", .obj [("coordinates", .arr [.num 10, .num 20])])]

/-- Feature whose longitude is out of bounds and whose latitude is a
string, so that the latitude comparison raises `TypeError`. -/
def raisingFeature : Json :=
  .obj [("properties", .obj [("depth", .num (-15)), ("time", .str "2020-01-01T00:00:00Z")]),
        ("geometry", .obj [("coordinates", .arr [.num (-200), .str "x"])])]

/-! ### Theorems -/

/-- C1 amended theorem.  When a feature fails the geometry-presence check
(coordinates falsy, not a list, or of length < 2), the evaluator emits
the single Finding "Invalid geometry coordinates" and skips all remaining
checks on that feature — longitude and latitude, but also depth, heading
and timestamp (the `continue` in the source abandons the whole loop
body). -/
theorem c1_geometry_failure_skips_feature (env : PyEnv) (fp label : String)
    (feature props geomObj coords : Json)
    (hp : pyDictGetD feature "properties" (.obj []) = .ok props)
    (hg : pyDictGetD feature "geometry" (.obj []) = .ok geomObj)
    (hc : pyDictGetD geomObj "coordinates" (.arr []) = .ok coords)
    (hgi : geomInvalid coords = true) :
    checkFeature env fp label feature =
      ([⟨fp, label, "Invalid geometry coordinates"⟩], none) := by
  simp [checkFeature, hp, hg, hc, hgi]

/-- C1 witness: a feature with a one-element coordinate list produces
exactly the geometry finding and nothing else. -/
theorem c1_witness :
    checkFeature witEnv "g.geojson" "7" featureShortCoords =
      ([⟨"g.geojson", "7", "Invalid geometry coordinates"⟩], none) :=
  c1_geometry_failure_skips_feature witEnv "g.geojson" "7" featureShortCoords
    (.obj []) (.obj [("coordinates", .arr [.num 5])]) (.arr [.num 5])
    rfl rfl rfl (by decide)

/-- C1 counterexample: on a feature that fails the geometry check while
its depth and timestamp are absent, the evaluator emits only the
geometry finding — no "Depth cannot be blank" and no "Timestamp cannot
be blank" finding appears, so the depth and timestamp checks did NOT run
on that feature, contrary to the claim. -/
theorem c1_counterexample :
    (checkFeature witEnv "file.geojson" "N/A" featureNoCoords).1 =
      [⟨"file.geojson", "N/A", "Invalid geometry coordinates"⟩] ∧
    "Depth cannot be blank" ∉
      ((checkFeature witEnv "file.geojson" "N/A" featureNoCoords).1.map Finding.error) ∧
    "Timestamp cannot be blank" ∉
      ((checkFeature witEnv "file.geojson" "N/A" featureNoCoords).1.map Finding.error) := by
  refine ⟨rfl, ?_, ?_⟩ <;> decide

theorem setAdd_toFinset (s : List String) (x : String) :
    (setAdd s x).toFinset = insert x s.toFinset := by
  by_cases h : x ∈ s
  · simp only [setAdd, if_pos h]
    ext a
    simp only [List.mem_toFinset, Finset.mem_insert]
    constructor
    · intro ha
      exact Or.inr ha
    · rintro (rfl | ha)
      · exact h
      · exact ha
  · simp only [setAdd, if_neg h]
    ext a
    simp [or_comm]

theorem setAdd_nodup (s : List String) (x : String) (h : s.Nodup) :
    (setAdd s x).Nodup := by
  by_cases hx : x ∈ s
  · simpa [setAdd, hx] using h
  · simp [setAdd, hx, List.nodup_append, h]

theorem foldl_setAdd_toFinset (l : List String) : ∀ s : List String,
    (l.foldl setAdd s).toFinset = s.toFinset ∪ l.toFinset := by
  induction l with
  | nil => intro s; simp
  | cons x xs ih =>
    intro s
    rw [List.foldl_cons, ih, setAdd_toFinset]
    ext a
    simp

theorem foldl_setAdd_nodup (l : List String) : ∀ s : List String, s.Nodup →
    (l.foldl setAdd s).Nodup := by
  induction l with
  | nil => intro s h; simpa using h
  | cons x xs ih =>
    intro s h
    rw [List.foldl_cons]
    exact ih _ (setAdd_nodup s x h)

theorem reportAccum_fst (results : List (String × List Finding)) : ∀ acc,
    (results.foldl reportStep acc).1 = (errPaths results).foldl setAdd acc.1 := by
  induction results with
  | nil => intro acc; simp [errPaths]
  | cons r rest ih =>
    intro acc
    rw [List.foldl_cons, ih]
    by_cases h : r.2.isEmpty
    · simp [errPaths, reportStep, h]
    · simp [errPaths, reportStep, h]

theorem reportAccum_snd_length (results : List (String × List Finding)) : ∀ acc,
    ((results.foldl reportStep acc).2).length =
      acc.2.length + (results.map fun r => r.2.length).sum := by
  induction results with
  | nil => intro acc; simp
  | cons r rest ih =>
    intro acc
    rw [List.foldl_cons, ih]
    by_cases h : r.2.isEmpty
    · have h0 : r.2.length = 0 := by
        simp_all [List.isEmpty_iff]
      simp [reportStep, h, h0]
    · simp [reportStep, h]
      omega

/-- C2 amended theorem.  The reported total-findings count equals the sum
of the per-FileResult finding counts; the reported files-with-errors
count equals the number of DISTINCT file paths among entries with a
non-empty finding list (the counter is a set of paths); when the file
paths are pairwise distinct it coincides with the number of such
entries. -/
theorem c2_report_summary (results : List (String × List Finding)) :
    (reportSummary results).2.2 = (results.map fun r => r.2.length).sum ∧
    (reportSummary results).2.1 = (errPaths results).dedup.length ∧
    ((results.map fun r => r.1).Nodup →
      (reportSummary results).2.1 = (results.filter fun r => !r.2.isEmpty).length) := by
  have hsnd : (reportSummary results).2.2 = (results.map fun r => r.2.length).sum := by
    have h := reportAccum_snd_length results ([], [])
    simpa [reportSummary, reportAccum] using h
  have hfst : (reportSummary results).2.1 = (errPaths results).dedup.length := by
    have h1 : (reportAccum results).1 = (errPaths results).foldl setAdd [] := by
      have h := reportAccum_fst results ([], [])
      simpa [reportAccum] using h
    have hnd : ((errPaths results).foldl setAdd []).Nodup :=
      foldl_setAdd_nodup _ [] (by simp)
    have hcard := List.toFinset_card_of_nodup hnd
    rw [foldl_setAdd_toFinset] at hcard
    simp only [List.toFinset_nil, Finset.empty_union] at hcard
    have hded : (errPaths results).toFinset.card = (errPaths results).dedup.length :=
      List.card_toFinset _
    simp only [reportSummary]
    rw [h1]
    omega
  refine ⟨hsnd, hfst, fun hnod => ?_⟩
  have hsub : List.Sublist (errPaths results) (results.map fun r => r.1) :=
    List.Sublist.map _ (List.filter_sublist _)
  have hnd2 : (errPaths results).Nodup := hnod.sublist hsub
  rw [hfst, List.dedup_eq_self.mpr hnd2, errPaths, List.length_map]

/-- C2 witness: on a distinct-path batch the totals agree with both the
dedup formulation and the entry count. -/
theorem c2_witness :
    (reportSummary wres).2.2 = (wres.map fun r => r.2.length).sum ∧
    (reportSummary wres).2.1 = (errPaths wres).dedup.length ∧
    (reportSummary wres).2.1 = (wres.filter fun r => !r.2.isEmpty).length := by
  have h := c2_report_summary wres
  exact ⟨h.1, h.2.1, h.2.2 (by decide)⟩

/-- C2 counterexample: two FileResult entries for the same path, both
with findings — the reported files-with-errors count is 1 (a set of
paths), not the number 2 of entries with non-empty findings as claimed. -/
theorem c2_counterexample :
    (reportSummary dupResults).2.1 = 1 ∧
    (dupResults.filter fun r => !r.2.isEmpty).length = 2 ∧
    (reportSummary dupResults).2.1 ≠ (dupResults.filter fun r => !r.2.isEmpty).length := by
  refine ⟨?_, ?_, ?_⟩ <;> decide

/-- C3 theorem.  The external validator adapter is a total function of
the invocation outcome (it never raises), and:
exit status 0 yields the empty finding list regardless of stdout;
a non-zero exit with no stdout line containing both "Path:" and "error:"
yields exactly one "Unstructured error" Finding;
a non-zero exit never yields an empty finding list;
an invocation failure yields exactly one Finding describing it. -/
theorem c3_adapter_behaviour (fp : String) (r : ProcResult) :
    (∀ out, r = .ran 0 out → run_trusted_node_validation fp r = (fp, [])) ∧
    (∀ rc out, r = .ran rc out → rc ≠ 0 →
      (∀ line ∈ pySplitlines (pyStrip out),
        (strContains line "Path:" && strContains line "error:") = false) →
      run_trusted_node_validation fp r =
        (fp, [⟨fp, "N/A", "Unstructured error"⟩])) ∧
    (∀ rc out, r = .ran rc out → rc ≠ 0 →
      (run_trusted_node_validation fp r).2 ≠ []) ∧
    (∀ msg, r = .launchFailure msg →
      run_trusted_node_validation fp r =
        (fp, [⟨fp, "N/A", "Subprocess error: " ++ msg⟩])) := by
  refine ⟨?_, ?_, ?_, ?_⟩
  · rintro out rfl
    simp [run_trusted_node_validation]
  · rintro rc out rfl hrc hlines
    have hse : structuredErrors fp out = [] := by
      unfold structuredErrors
      rw [List.filterMap_eq_nil_iff]
      intro line hline
      simp [hlines line hline]
    simp [run_trusted_node_validation, hrc, hse]
  · rintro rc out rfl hrc
    simp only [run_trusted_node_validation, if_neg hrc]
    cases hse : structuredErrors fp out with
    | nil => simp [hse]
    | cons a as => simp [hse]
  · rintro msg rfl
    simp [run_trusted_node_validation]

/-- C3 witness: concrete instances of the three behaviours. -/
theorem c3_witness :
    run_trusted_node_validation "f.json" (.ran 0 "Path: /a error: ignored") =
      ("f.json", []) ∧
    run_trusted_node_validation "f.json" (.ran 3 "no structure here") =
      ("f.json", [⟨"f.json", "N/A", "Unstructured error"⟩]) ∧
    run_trusted_node_validation "f.json" (.launchFailure "binary missing") =
      ("f.json", [⟨"f.json", "N/A", "Subprocess error: binary missing"⟩]) :=
  ⟨(c3_adapter_behaviour "f.json" _).1 _ rfl,
   (c3_adapter_behaviour "f.json" _).2.1 3 _ rfl (by decide) (by decide),
   (c3_adapter_behaviour "f.json" _).2.2.2 _ rfl⟩

/-- C4 theorem.  A file whose content fails to parse as JSON yields
exactly one Finding, with feature label "N/A" and a message naming the
parse failure; no per-feature checks run and no exception escapes. -/
theorem c4_unparsable_file (env : PyEnv) (fp content msg : String)
    (h : env.jsonLoads content = .error msg) :
    run_custom_validation env fp content =
      (fp, [⟨fp, "N/A", "Failed to parse JSON: " ++ msg⟩]) := by
  simp [run_custom_validation, h]

/-- C4 witness: the always-failing parser environment on arbitrary
content. -/
theorem c4_witness :
    run_custom_validation witEnv "data.geojson" "not json at all" =
      ("data.geojson",
        [⟨"data.geojson", "N/A",
          "Failed to parse JSON: Expecting value: line 1 column 1 (char 0)"⟩]) :=
  c4_unparsable_file witEnv "data.geojson" "not json at all"
    "Expecting value: line 1 column 1 (char 0)" rfl

/-- C10 theorem.  An exception escaping the evaluation of one feature is
not propagated: the loop appends one "Failed to parse JSON" Finding with
label "N/A" after the findings already accumulated for that feature and
abandons the remaining features; and on a successfully parsed collection
the run is exactly this loop, so the returned list can contain rule
findings followed by the parse-failure finding. -/
theorem c10_feature_exception :
    (∀ (env : PyEnv) (fp : String) (lineMap : List (Nat × Nat)) (i : Nat)
        (f : Json) (rest : List Json) (e : PyErr),
      (checkFeature env fp (featureLabel lineMap i) f).2 = some e →
      validateFeatures env fp lineMap i (f :: rest) =
        (checkFeature env fp (featureLabel lineMap i) f).1 ++
          [⟨fp, "N/A", "Failed to parse JSON: " ++ pyErrStr e⟩]) ∧
    (∀ (env : PyEnv) (fp content : String) (data : Json) (feats : List Json),
      env.jsonLoads content = .ok data → featuresList data = .ok feats →
      run_custom_validation env fp content =
        (fp, validateFeatures env fp (extract_feature_line_numbers content) 0 feats)) := by
  constructor
  · intro env fp lineMap i f rest e h
    simp only [validateFeatures]
    rcases hq : checkFeature env fp (featureLabel lineMap i) f with ⟨fs, err⟩
    rw [hq] at h
    simp only at h
    subst h
    simp
  · intro env fp content data feats h1 h2
    simp [run_custom_validation, h1, h2]

/-- C5 theorem.  Step behaviour of the position indexer: while not yet in
the features context, a line lacking the literal `"features"` key or an
opening bracket is ignored; a line containing both enters the context
(and is itself consumed); a `\x7b` seen with an empty stack records the
current 1-based line as the candidate start for the next ordinal; a
`\x7d` popping the stack to empty commits the ordinal-to-line entry and
advances the ordinal; a `]` seen with an empty stack terminates,
returning the map built so far; and the whole indexer is this scan from
line 0, not in the features context, with the empty state. -/
theorem c5_position_indexer :
    (∀ (i : Nat) (st : ScanSt) (line : String) (rest : List String),
      (strContains line "\"features\"" && strContains line "[") = false →
      scanLines i false st (line :: rest) = scanLines (i+1) false st rest) ∧
    (∀ (i : Nat) (st : ScanSt) (line : String) (rest : List String),
      strContains line "\"features\"" = true → strContains line "[" = true →
      scanLines i false st (line :: rest) = scanLines (i+1) true st rest) ∧
    (∀ (lineNo : Nat) (st : ScanSt), st.bracketStack = [] →
      processChar lineNo st '{' =
        .inl { st with featureStartPos := some lineNo, bracketStack := ['{'] }) ∧
    (∀ (lineNo : Nat) (st : ScanSt) (p : Nat),
      st.bracketStack = ['{'] → st.featureStartPos = some p → p ≠ 0 →
      processChar lineNo st '}' =
        .inl ⟨st.featureLineMap ++ [(st.featureIndex, p)], st.featureIndex + 1, [], none⟩) ∧
    (∀ (lineNo : Nat) (st : ScanSt), st.bracketStack = [] →
      processChar lineNo st ']' = .inr st.featureLineMap) ∧
    (∀ content, extract_feature_line_numbers content =
      scanLines 0 false ⟨[], 0, [], none⟩ (pySplitlines content)) := by
  refine ⟨?_, ?_, ?_, ?_, ?_, fun _ => rfl⟩
  · intro i st line rest h
    simp [scanLines, h]
  · intro i st line rest h1 h2
    simp [scanLines, h1, h2]
  · intro lineNo st h
    simp [processChar, h]
  · rintro lineNo ⟨m, idx, stack, pos⟩ p hstack hpos hp0
    simp only at hstack hpos
    subst hstack; subst hpos
    simp [processChar, optPosTruthy, hp0]
  · intro lineNo st h
    simp [processChar, h]

/-- C5 witness: concrete instances of each scanner step. -/
theorem c5_witness :
    scanLines 0 false ⟨[], 0, [], none⟩ ["no marker here"] =
      scanLines 1 false ⟨[], 0, [], none⟩ [] ∧
    scanLines 0 false ⟨[], 0, [], none⟩ ["  \"features\": ["] =
      scanLines 1 true ⟨[], 0, [], none⟩ [] ∧
    processChar 3 ⟨[], 0, [], none⟩ '{' = .inl ⟨[], 0, ['{'], some 3⟩ ∧
    processChar 5 ⟨[(0, 2)], 1, ['{'], some 4⟩ '}' = .inl ⟨[(0, 2), (1, 4)], 2, [], none⟩ ∧
    processChar 9 ⟨[(0, 2)], 1, [], none⟩ ']' = .inr [(0, 2)] ∧
    extract_feature_line_numbers "x" = scanLines 0 false ⟨[], 0, [], none⟩ (pySplitlines "x") :=
  ⟨c5_position_indexer.1 0 _ _ _ (by decide),
   c5_position_indexer.2.1 0 _ _ _ (by decide) (by decide),
   c5_position_indexer.2.2.1 3 _ rfl,
   c5_position_indexer.2.2.2.1 5 _ 4 rfl rfl (by decide),
   c5_position_indexer.2.2.2.2.1 9 _ rfl,
   c5_position_indexer.2.2.2.2.2 "x"⟩

theorem checkFeature_decomp (env : PyEnv) (fp label : String)
    (feature props geomObj coords : Json) (lonFs latFs headFs : List Finding)
    (dOpt hOpt tOpt : Option Json)
    (hp : pyDictGetD feature "properties" (.obj []) = .ok props)
    (hg : pyDictGetD feature "geometry" (.obj []) = .ok geomObj)
    (hc : pyDictGetD geomObj "coordinates" (.arr []) = .ok coords)
    (hgi : geomInvalid coords = false)
    (hlon : lonCheck fp label (coords.elems.getD 0 .null) = .ok lonFs)
    (hlat : latCheck fp label (coords.elems.getD 1 .null) = .ok latFs)
    (hd : pyDictGet props "depth" = .ok dOpt)
    (hh : pyDictGet props "heading" = .ok hOpt)
    (hhc : headingCheck env fp label hOpt = .ok headFs)
    (ht : pyDictGet props "time" = .ok tOpt) :
    checkFeature env fp label feature =
      (lonFs ++ latFs ++ depthCheck fp label dOpt ++ headFs ++
        timeCheck env fp label tOpt, none) := by
  simp only [checkFeature, hp, hg, hc, hgi, Bool.false_eq_true, if_false,
    hlon, hlat, hd, hh, hhc, ht]

theorem append_ne_of_length_lt (p s t : String) (h : t.length < p.length) :
    p ++ s ≠ t := by
  intro he
  have hl := congrArg String.length he
  rw [String.length_append] at hl
  omega

theorem lonCheck_ne_depth_blank (fp label : String) (v : Json) (fs : List Finding)
    (h : lonCheck fp label v = .ok fs) :
    ∀ f ∈ fs, f.error ≠ "Depth cannot be blank" := by
  intro f hf
  unfold lonCheck at h
  repeat' split at h
  all_goals cases h
  all_goals simp only [List.mem_singleton, List.not_mem_nil] at hf
  all_goals (subst hf; exact append_ne_of_length_lt _ _ _ (by decide))

theorem latCheck_ne_depth_blank (fp label : String) (v : Json) (fs : List Finding)
    (h : latCheck fp label v = .ok fs) :
    ∀ f ∈ fs, f.error ≠ "Depth cannot be blank" := by
  intro f hf
  unfold latCheck at h
  repeat' split at h
  all_goals cases h
  all_goals simp only [List.mem_singleton, List.not_mem_nil] at hf
  all_goals (subst hf; exact append_ne_of_length_lt _ _ _ (by decide))

theorem headingCheck_ne_depth_blank (env : PyEnv) (fp label : String)
    (hOpt : Option Json) (fs : List Finding)
    (h : headingCheck env fp label hOpt = .ok fs) :
    ∀ f ∈ fs, f.error ≠ "Depth cannot be blank" := by
  intro f hf
  unfold headingCheck at h
  repeat' split at h
  all_goals cases h
  all_goals simp only [List.mem_singleton, List.not_mem_nil] at hf
  all_goals (subst hf; exact append_ne_of_length_lt _ _ _ (by decide))

theorem timeCheck_ne_depth_blank (env : PyEnv) (fp label : String)
    (tOpt : Option Json) :
    ∀ f ∈ timeCheck env fp label tOpt, f.error ≠ "Depth cannot be blank" := by
  intro f hf
  unfold timeCheck at hf
  repeat' split at hf
  all_goals simp only [List.mem_singleton, List.not_mem_nil] at hf
  all_goals subst hf
  all_goals first
    | exact append_ne_of_length_lt _ _ _ (by decide)
    | (intro he; simp at he)

/-- C6 theorem.  An absent or null depth yields exactly one
"Depth cannot be blank" Finding for the feature (no other check can
produce that message); the strict variant with `strict := false` is
exactly the source depth check, and with `strict := true` depth -15
yields no depth finding while depth 15 yields one. -/
theorem c6_depth_check :
    (∀ (env : PyEnv) (fp label : String) (feature props geomObj coords : Json)
        (lonFs latFs headFs : List Finding) (dOpt hOpt tOpt : Option Json),
      pyDictGetD feature "properties" (.obj []) = .ok props →
      pyDictGetD feature "geometry" (.obj []) = .ok geomObj →
      pyDictGetD geomObj "coordinates" (.arr []) = .ok coords →
      geomInvalid coords = false →
      lonCheck fp label (coords.elems.getD 0 .null) = .ok lonFs →
      latCheck fp label (coords.elems.getD 1 .null) = .ok latFs →
      pyDictGet props "depth" = .ok dOpt →
      pyDictGet props "heading" = .ok hOpt →
      headingCheck env fp label hOpt = .ok headFs →
      pyDictGet props "time" = .ok tOpt →
      dOpt = none ∨ dOpt = some .null →
      ((checkFeature env fp label feature).1.map Finding.error).count
        "Depth cannot be blank" = 1) ∧
    (∀ (fp label : String) (d : Option Json),
      depthCheckStrict false fp label d = depthCheck fp label d) ∧
    (∀ fp label : String,
      depthCheckStrict true fp label (some (.num (-15))) = []) ∧
    (∀ fp label : String,
      depthCheckStrict true fp label (some (.num 15)) =
        [⟨fp, label, "Depth must be negative"⟩]) := by
  refine ⟨?_, ?_, ?_, ?_⟩
  · intro env fp label feature props geomObj coords lonFs latFs headFs dOpt hOpt tOpt
      hp hg hc hgi hlon hlat hd hh hhc ht hblank
    rw [checkFeature_decomp env fp label feature props geomObj coords lonFs latFs headFs
      dOpt hOpt tOpt hp hg hc hgi hlon hlat hd hh hhc ht]
    simp only [List.map_append, List.count_append]
    have h1 : (lonFs.map Finding.error).count "Depth cannot be blank" = 0 := by
      rw [List.count_eq_zero]
      intro hm
      obtain ⟨f, hfm, hfe⟩ := List.mem_map.mp hm
      exact lonCheck_ne_depth_blank fp label _ lonFs hlon f hfm hfe
    have h2 : (latFs.map Finding.error).count "Depth cannot be blank" = 0 := by
      rw [List.count_eq_zero]
      intro hm
      obtain ⟨f, hfm, hfe⟩ := List.mem_map.mp hm
      exact latCheck_ne_depth_blank fp label _ latFs hlat f hfm hfe
    have h3 : (headFs.map Finding.error).count "Depth cannot be blank" = 0 := by
      rw [List.count_eq_zero]
      intro hm
      obtain ⟨f, hfm, hfe⟩ := List.mem_map.mp hm
      exact headingCheck_ne_depth_blank env fp label hOpt headFs hhc f hfm hfe
    have h4 : ((timeCheck env fp label tOpt).map Finding.error).count
        "Depth cannot be blank" = 0 := by
      rw [List.count_eq_zero]
      intro hm
      obtain ⟨f, hfm, hfe⟩ := List.mem_map.mp hm
      exact timeCheck_ne_depth_blank env fp label tOpt f hfm hfe
    have h5 : ((depthCheck fp label dOpt).map Finding.error).count
        "Depth cannot be blank" = 1 := by
      rcases hblank with rfl | rfl <;> simp [depthCheck]
    rw [h1, h2, h3, h4, h5]
  · intro fp label d
    rcases d with _ | v
    · rfl
    · cases v <;> rfl
  · intro fp label
    simp [depthCheckStrict]
  · intro fp label
    norm_num [depthCheckStrict]

/-- C6 witness: a feature with no depth yields exactly one depth-blank
finding; the strict variant at -15 and 15. -/
theorem c6_witness :
    ((checkFeature witEnv "d.geojson" "5" featureNoDepth).1.map Finding.error).count
      "Depth cannot be blank" = 1 ∧
    depthCheckStrict true "d.geojson" "5" (some (.num (-15))) = [] ∧
    depthCheckStrict true "d.geojson" "5" (some (.num 15)) =
      [⟨"d.geojson", "5", "Depth must be negative"⟩] :=
  ⟨c6_depth_check.1 witEnv "d.geojson" "5" featureNoDepth _ _ _ [] [] [] none none
      (some (.str "2020-01-01T00:00:00Z")) rfl rfl rfl rfl rfl rfl rfl rfl rfl rfl
      (Or.inl rfl),
   c6_depth_check.2.2.1 "d.geojson" "5",
   c6_depth_check.2.2.2 "d.geojson" "5"⟩

theorem timeCheck_future (env : PyEnv) (fp label s : String) (ts : Int)
    (hs : s ≠ "") (hp : env.parseIso (pyReplace s "Z" "+00:00") = some ts)
    (hn : env.now < ts) :
    timeCheck env fp label (some (.str s)) =
      [⟨fp, label, "Timestamp should be in the past: " ++ pySlice s 10⟩] := by
  simp [timeCheck, pyTruthy, hs, hp, hn]

/-- C7 theorem.  A non-empty string timestamp that parses to an instant
strictly later than now yields exactly the "should be in the past"
Finding whose message carries only the first 10 characters of the value
(the date portion), not the full timestamp; and under the usual
evaluation hypotheses that Finding is among the feature's findings. -/
theorem c7_future_timestamp :
    (∀ (env : PyEnv) (fp label s : String) (ts : Int), s ≠ "" →
      env.parseIso (pyReplace s "Z" "+00:00") = some ts → env.now < ts →
      timeCheck env fp label (some (.str s)) =
        [⟨fp, label, "Timestamp should be in the past: " ++ pySlice s 10⟩]) ∧
    (∀ (env : PyEnv) (fp label : String) (feature props geomObj coords : Json)
        (lonFs latFs headFs : List Finding) (dOpt hOpt : Option Json)
        (s : String) (ts : Int),
      pyDictGetD feature "properties" (.obj []) = .ok props →
      pyDictGetD feature "geometry" (.obj []) = .ok geomObj →
      pyDictGetD geomObj "coordinates" (.arr []) = .ok coords →
      geomInvalid coords = false →
      lonCheck fp label (coords.elems.getD 0 .null) = .ok lonFs →
      latCheck fp label (coords.elems.getD 1 .null) = .ok latFs →
      pyDictGet props "depth" = .ok dOpt →
      pyDictGet props "heading" = .ok hOpt →
      headingCheck env fp label hOpt = .ok headFs →
      pyDictGet props "time" = .ok (some (.str s)) →
      s ≠ "" → env.parseIso (pyReplace s "Z" "+00:00") = some ts → env.now < ts →
      ⟨fp, label, "Timestamp should be in the past: " ++ pySlice s 10⟩ ∈
        (checkFeature env fp label feature).1) := by
  refine ⟨timeCheck_future, ?_⟩
  intro env fp label feature props geomObj coords lonFs latFs headFs dOpt hOpt s ts
    hp hg hc hgi hlon hlat hd hh hhc ht hs hpi hn
  rw [checkFeature_decomp env fp label feature props geomObj coords lonFs latFs headFs
    dOpt hOpt (some (.str s)) hp hg hc hgi hlon hlat hd hh hhc ht]
  rw [timeCheck_future env fp label s ts hs hpi hn]
  simp

/-- C7 witness: a timestamp one year in the future yields the finding
with the 10-character date portion only. -/
theorem c7_witness :
    timeCheck futureEnv "t.geojson" "12" (some (.str "2100-01-01T00:00:00Z")) =
      [⟨"t.geojson", "12", "Timestamp should be in the past: 2100-01-01"⟩] ∧
    (⟨"t.geojson", "12", "Timestamp should be in the past: 2100-01-01"⟩ : Finding) ∈
      (checkFeature futureEnv "t.geojson" "12" featureFutureTime).1 := by
  constructor
  · have h := c7_future_timestamp.1 futureEnv "t.geojson" "12" "2100-01-01T00:00:00Z"
      4102444800 (by decide) rfl (by decide)
    rw [h]
    decide
  · exact c7_future_timestamp.2 futureEnv "t.geojson" "12" featureFutureTime _ _ _
      [] [] [] (some (.num (-15))) none "2100-01-01T00:00:00Z" 4102444800
      rfl rfl rfl rfl rfl rfl rfl rfl rfl rfl (by decide) rfl (by decide)

/-- C8 theorem.  Heading check: a present value that fails the float
conversion yields the "not a valid number" Finding; a value converting
to a number outside [0, 360] yields the out-of-bounds Finding; a value
converting to a number within [0, 360] yields no Finding; an absent
heading yields no Finding; and the two message forms are distinct. -/
theorem c8_heading_check (env : PyEnv) (fp label : String) :
    (∀ s, env.strToFloat s = none →
      headingCheck env fp label (some (.str s)) =
        .ok [⟨fp, label, "Heading is not a valid number: " ++ s⟩]) ∧
    (∀ q : ℚ, q < 0 ∨ q > 360 →
      headingCheck env fp label (some (.num q)) =
        .ok [⟨fp, label, "Heading out of bounds: " ++ pyStr (.num q)⟩]) ∧
    (∀ q : ℚ, 0 ≤ q → q ≤ 360 →
      headingCheck env fp label (some (.num q)) = .ok []) ∧
    (∀ s q, env.strToFloat s = some q → q < 0 ∨ q > 360 →
      headingCheck env fp label (some (.str s)) =
        .ok [⟨fp, label, "Heading out of bounds: " ++ s⟩]) ∧
    (∀ s q, env.strToFloat s = some q → 0 ≤ q → q ≤ 360 →
      headingCheck env fp label (some (.str s)) = .ok []) ∧
    headingCheck env fp label none = .ok [] ∧
    (∀ s t : String,
      "Heading is not a valid number: " ++ s ≠ "Heading out of bounds: " ++ t) := by
  refine ⟨?_, ?_, ?_, ?_, ?_, rfl, ?_⟩
  · intro s h
    simp [headingCheck, pyFloat, h, pyStr]
  · intro q h
    simp [headingCheck, pyFloat, if_pos h]
  · intro q h1 h2
    have h : ¬(q < 0 ∨ q > 360) := by
      push_neg
      exact ⟨h1, h2⟩
    simp [headingCheck, pyFloat, if_neg h]
  · intro s q hq h
    simp [headingCheck, pyFloat, hq, if_pos h, pyStr]
  · intro s q hq h1 h2
    have h : ¬(q < 0 ∨ q > 360) := by
      push_neg
      exact ⟨h1, h2⟩
    simp [headingCheck, pyFloat, hq, if_neg h]
  · intro s t h
    have hd := congrArg (fun z : String => z.data.take 9) h
    simp only [String.data_append] at hd
    rw [List.take_append_of_le_length (by decide),
      List.take_append_of_le_length (by decide)] at hd
    exact absurd hd (by decide)

/-- C8 witness: a non-converting string, the value 400 and the value 100,
with the two failure messages distinct. -/
theorem c8_witness :
    headingCheck witEnv "h.geojson" "4" (some (.str "abc")) =
      .ok [⟨"h.geojson", "4", "Heading is not a valid number: abc"⟩] ∧
    headingCheck witEnv "h.geojson" "4" (some (.num 400)) =
      .ok [⟨"h.geojson", "4", "Heading out of bounds: 400"⟩] ∧
    headingCheck witEnv "h.geojson" "4" (some (.num 100)) = .ok [] ∧
    headingCheck witEnv "h.geojson" "4" none = .ok [] ∧
    "Heading is not a valid number: abc" ≠ "Heading out of bounds: 400" := by
  have h := c8_heading_check witEnv "h.geojson" "4"
  refine ⟨h.1 "abc" rfl, ?_, h.2.2.1 100 (by norm_num) (by norm_num), h.2.2.2.2.2.1,
    h.2.2.2.2.2.2 "abc" "400"⟩
  rw [h.2.1 400 (Or.inr (by norm_num))]
  rfl

/-- C9 theorem.  Coordinates `[lon, lat, ...]` with numeric entries in
bounds produce no geometry, longitude or latitude finding; a numeric
longitude outside [-180, 180] produces the longitude-out-of-bounds
Finding whose message carries the value verbatim, and symmetrically for
a numeric latitude outside [-90, 90]. -/
theorem c9_lonlat_bounds (fp label : String) :
    (∀ (p q : ℚ) (rest : List Json), -180 ≤ p → p ≤ 180 → -90 ≤ q → q ≤ 90 →
      geomInvalid (.arr (.num p :: .num q :: rest)) = false ∧
      lonCheck fp label (.num p) = .ok [] ∧
      latCheck fp label (.num q) = .ok []) ∧
    (∀ p : ℚ, p < -180 ∨ p > 180 →
      lonCheck fp label (.num p) =
        .ok [⟨fp, label, "Longitude out of bounds: " ++ pyStr (.num p)⟩]) ∧
    (∀ q : ℚ, q < -90 ∨ q > 90 →
      latCheck fp label (.num q) =
        .ok [⟨fp, label, "Latitude out of bounds: " ++ pyStr (.num q)⟩]) := by
  refine ⟨?_, ?_, ?_⟩
  · intro p q rest hp1 hp2 hq1 hq2
    refine ⟨?_, ?_, ?_⟩
    · simp [geomInvalid, pyTruthy, Json.isArr, Json.pyLen]
    · have h1 : ¬(p < -180) := not_lt.mpr hp1
      have h2 : ¬(180 < p) := not_lt.mpr hp2
      simp [lonCheck, pyLtNum, pyGtNum, Json.isNull, h1, h2]
    · have h1 : ¬(q < -90) := not_lt.mpr hq1
      have h2 : ¬(90 < q) := not_lt.mpr hq2
      simp [latCheck, pyLtNum, pyGtNum, Json.isNull, h1, h2]
  · intro p hp
    rcases hp with hp | hp
    · simp [lonCheck, pyLtNum, Json.isNull, hp]
    · have h1 : ¬(p < -180) := by
        intro hc
        linarith
      simp [lonCheck, pyLtNum, pyGtNum, Json.isNull, h1, hp]
  · intro q hq
    rcases hq with hq | hq
    · simp [latCheck, pyLtNum, Json.isNull, hq]
    · have h1 : ¬(q < -90) := by
        intro hc
        linarith
      simp [latCheck, pyLtNum, pyGtNum, Json.isNull, h1, hq]

/-- C9 witness: in-bounds coordinates [10, 20] produce nothing; longitude
-200 produces its finding with the literal "-200" in the message;
latitude 95 produces its finding with the literal "95". -/
theorem c9_witness :
    geomInvalid (.arr [.num 10, .num 20]) = false ∧
    lonCheck "w.geojson" "2" (.num 10) = .ok [] ∧
    latCheck "w.geojson" "2" (.num 20) = .ok [] ∧
    lonCheck "w.geojson" "2" (.num (-200)) =
      .ok [⟨"w.geojson", "2", "Longitude out of bounds: -200"⟩] ∧
    strContains "Longitude out of bounds: -200" "-200" = true ∧
    latCheck "w.geojson" "2" (.num 95) =
      .ok [⟨"w.geojson", "2", "Latitude out of bounds: 95"⟩] ∧
    strContains "Latitude out of bounds: 95" "95" = true := by
  have h := c9_lonlat_bounds "w.geojson" "2"
  have hin := h.1 10 20 [] (by norm_num) (by norm_num) (by norm_num) (by norm_num)
  refine ⟨hin.1, hin.2.1, hin.2.2, ?_, by decide, ?_, by decide⟩
  · rw [h.2.1 (-200) (Or.inl (by norm_num))]
    rfl
  · rw [h.2.2 95 (Or.inr (by norm_num))]
    rfl

/-- C10 witness: a feature with an out-of-bounds longitude and a string
latitude accumulates the longitude finding, then the latitude comparison
raises; the returned list is that rule finding followed by the
parse-failure finding, and the following feature is abandoned. -/
theorem c10_witness :
    validateFeatures witEnv "f.geojson" [] 0 [raisingFeature, Json.null] =
      [⟨"f.geojson", "N/A", "Longitude out of bounds: -200"⟩,
       ⟨"f.geojson", "N/A",
        "Failed to parse JSON: comparison not supported between these types"⟩] := by
  have h := c10_feature_exception.1 witEnv "f.geojson" [] 0 raisingFeature [Json.null]
    (.typeError "comparison not supported between these types") (by decide)
  rw [h]
  decide

end Csb
